import Mathlib

/-!
# Verification of the TFTPRouterFlasher orchestration logic

Shallow embedding of `src/tftp_router_flasher/main.py`.

The Python program talks to the outside world through a handful of
collaborators: `subprocess.run` (the `ip` and `ping` commands), the
`tftpy` TFTP client, `input()` for the operator consent prompt,
`os.path.isfile`, `psutil.net_if_addrs`, and a logger.  The embedding
makes that world explicit as an `Env` record of response functions, and
every function returns, next to its Python return value, the list of
observable `Event`s it performs, in order.

The one piece of world state that the program itself mutates and that
its later observations depend on is the local interface configuration
(`configure_interface` changes which addresses are reachable).  It is
threaded through as `Cfg`: `none` for "whatever the machine started
with", `some (ip, netmask, gateway)` after a `configure_interface` call.
The environment's ping and TFTP outcome functions take the current
`Cfg` as an argument, so a probe of the same address may answer
differently under different local configurations, exactly as in reality.
-/

namespace TRF

/-- The local interface configuration the program has applied so far:
`none` before any `configure_interface` call, otherwise the
(ip, netmask, gateway) triple of the last call. -/
abbrev Cfg := Option (String × String × String)

/-- One observable action of the program, in program order. -/
inductive Event where
  /-- A `subprocess.run cmd` call together with the exit code the OS gave it. -/
  | run : List String → Nat → Event
  /-- `logger.info msg` -/
  | logi : String → Event
  /-- `logger.warning msg` -/
  | logw : String → Event
  /-- `logger.error msg` -/
  | loge : String → Event
  /-- Start of a `configure_interface interface ip netmask gateway` call
  (the structured counterpart of its `logger.debug` line). -/
  | configure : String → String → String → String → Event
  /-- `time.sleep secs` -/
  | sleep : Nat → Event
  /-- The `input prompt` consent read, with the operator's raw answer. -/
  | prompt : String → String → Event
  /-- One invocation of the TFTP transfer mechanism
  (`tftpy.TftpClient(host, port)` + `client.upload`): host, port,
  local firmware path, timeout, and `none` on a clean transfer or
  `some e` when the transfer raised an exception with message `e`. -/
  | tftpUpload : String → Nat → String → Nat → Option String → Event
deriving DecidableEq

/-- The outside world the program runs against. -/
structure Env where
  /-- Whether one ICMP echo of the given target succeeds, as a function of
  the current local interface configuration and the attempt index
  within a single `ping_host` call. -/
  pingOk : Cfg → String → Nat → Bool
  /-- Exit code the OS gives to a non-ping `subprocess.run` command.
  The program never inspects these (it passes no `check=True`), so they
  are recorded in the trace only. -/
  runRet : List String → Nat
  /-- Outcome of a TFTP transfer: `none` for a clean transfer, `some e`
  when the client raises with message `e`; may depend on the current
  local configuration. -/
  uploadErr : Cfg → String → String → Nat → Option String
  /-- The operator's raw answer to the consent prompt. -/
  consent : String
  /-- Parsed result of `get_ip_info`: the OS-reported (ip, netmask) of an
  interface (empty strings when it has none). -/
  ipInfo : String → String × String
  /-- Parsed result of `get_default_gateway` (empty when no default route). -/
  defaultGw : String
  /-- Whether `psutil.net_if_addrs()` lists the interface. -/
  ifaceExists : String → Bool
  /-- Whether `os.path.isfile` holds of a path. -/
  isFile : String → Bool

/-- `validate_interface`: the interface is in the OS-reported set. -/
def validate_interface (interface : String) (env : Env) : Bool :=
  env.ifaceExists interface

/-- `get_ip_info`: runs `ip -4 addr show <interface>` and parses the first
`inet` line.  The parse result is supplied by the environment; the exit
code of the command is never inspected by the source. -/
def get_ip_info (interface : String) (env : Env) : (String × String) × List Event :=
  (env.ipInfo interface,
   [Event.run ["ip", "-4", "addr", "show", interface]
      (env.runRet ["ip", "-4", "addr", "show", interface])])

/-- `get_default_gateway`: runs `ip route` and parses the `default` line. -/
def get_default_gateway (env : Env) : String × List Event :=
  (env.defaultGw, [Event.run ["ip", "route"] (env.runRet ["ip", "route"])])

/-- `print_connection_info`: four `logger.info` lines. -/
def print_connection_info (hostname ipaddr netmask gateway : String) : List Event :=
  [Event.logi ("Hostname: " ++ hostname),
   Event.logi ("IP Address: " ++ ipaddr),
   Event.logi ("Netmask: " ++ netmask),
   Event.logi ("Gateway: " ++ gateway)]

/-- The retry loop of `ping_host`: `for _ in range(retries)` — log, send one
echo, return `True` on exit code 0, otherwise sleep `delay` and retry.
`attempt` is the index of the current attempt (so the environment can
answer differently per attempt), the second argument the number of
attempts left. -/
def ping_host_loop (env : Env) (cfg : Cfg) (ip : String) (delay : Nat) :
    Nat → Nat → Bool × List Event
  | _, 0 => (false, [])
  | attempt, Nat.succ k =>
    let ev := [Event.logi ("Pinging IP: " ++ ip),
               Event.run ["ping", "-c", "1", ip] (if env.pingOk cfg ip attempt then 0 else 1)]
    if env.pingOk cfg ip attempt then (true, ev)
    else
      let rest := ping_host_loop env cfg ip delay (attempt + 1) k
      (rest.1, ev ++ Event.sleep delay :: rest.2)

/-- `ping_host`: immediately `True` when `no_ping` is set (no echo is sent),
otherwise up to `retries` echo attempts with `delay` seconds between
failures.  The source defaults `retries = 3`, `delay = 1` and no caller
overrides them. -/
def ping_host (ip : String) (no_ping : Bool) (env : Env) (cfg : Cfg)
    (retries delay : Nat) : Bool × List Event :=
  if no_ping then (true, [])
  else ping_host_loop env cfg ip delay 0 retries

/-- `configure_interface`: a debug line then four `ip` commands (flush,
add, link up, route add).  The source never inspects their exit codes and
returns `None`; the new local configuration becomes the applied triple. -/
def configure_interface (interface ip netmask gateway : String) (env : Env)
    (_cfg : Cfg) : Cfg × List Event :=
  (some (ip, netmask, gateway),
   [Event.configure interface ip netmask gateway,
    Event.run ["ip", "addr", "flush", "dev", interface]
      (env.runRet ["ip", "addr", "flush", "dev", interface]),
    Event.run ["ip", "addr", "add", ip ++ "/" ++ netmask, "dev", interface]
      (env.runRet ["ip", "addr", "add", ip ++ "/" ++ netmask, "dev", interface]),
    Event.run ["ip", "link", "set", interface, "up"]
      (env.runRet ["ip", "link", "set", interface, "up"]),
    Event.run ["ip", "route", "add", "default", "via", gateway]
      (env.runRet ["ip", "route", "add", "default", "via", gateway])])

/-- `upload_binary_using_tftp`: one TFTP session to `hostname` on port 69.
A clean transfer logs "Upload complete" and returns `True`; any exception
`e` is caught, logged as `TFTP upload failed: e`, and `False` is
returned — never re-raised. -/
def upload_binary_using_tftp (hostname firmware : String) (timeout : Nat)
    (env : Env) (cfg : Cfg) : Bool × List Event :=
  match env.uploadErr cfg hostname firmware timeout with
  | none =>
    (true, [Event.logi ("Uploading firmware to " ++ hostname),
            Event.tftpUpload hostname 69 firmware timeout none,
            Event.logi "Upload complete"])
  | some e =>
    (false, [Event.logi ("Uploading firmware to " ++ hostname),
             Event.tftpUpload hostname 69 firmware timeout (some e),
             Event.loge ("TFTP upload failed: " ++ e)])

/-- The `for i in range(2, 26)` loop of `try_default_ip_range`, over the
remaining candidate final octets, threading the local configuration. -/
def try_default_ip_range_loop (interface firmware : String) (timeout : Nat)
    (no_ping : Bool) (env : Env) : Cfg → List Nat → Bool × List Event
  | _, [] => (false, [])
  | cfg, i :: rest =>
    let test_ip := "192.168.1." ++ toString i
    let c := configure_interface interface test_ip "24" "192.168.1.1" env cfg
    let p := ping_host "192.168.1.1" no_ping env c.1 3 1
    if p.1 then
      let u := upload_binary_using_tftp "192.168.1.1" firmware timeout env c.1
      (u.1, c.2 ++ Event.sleep 2 :: (p.2 ++ u.2))
    else
      let r := try_default_ip_range_loop interface firmware timeout no_ping env c.1 rest
      (r.1, c.2 ++ Event.sleep 2 :: (p.2 ++ r.2))

/-- `try_default_ip_range`: candidates 192.168.1.2 .. 192.168.1.25 in
increasing order (`range(2, 26)`); for each, configure the interface to
the candidate with netmask 24 and gateway 192.168.1.1, sleep 2s, probe
192.168.1.1; on first probe success upload to 192.168.1.1 and return the
upload's result; `False` when the list is exhausted. -/
def try_default_ip_range (interface firmware : String) (timeout : Nat)
    (no_ping : Bool) (env : Env) (cfg : Cfg) : Bool × List Event :=
  try_default_ip_range_loop interface firmware timeout no_ping env cfg (List.range' 2 24)

/-- Python `str.lower` as used on the consent answer (ASCII case
mapping, which is all the answers compared against "y" rely on). -/
def pyLower (s : String) : String :=
  ⟨s.data.map Char.toLower⟩

/-- Python `str.strip` with no argument: remove leading and trailing
whitespace. -/
def pyStrip (s : String) : String :=
  ⟨((s.data.dropWhile Char.isWhitespace).reverse.dropWhile Char.isWhitespace).reverse⟩

/-- `validate_firmware_path`: `os.path.isfile` check, logging an error on
failure. -/
def validate_firmware_path (firmware : String) (env : Env) : Bool × List Event :=
  if env.isFile firmware then (true, [])
  else (false, [Event.loge ("Invalid firmware path: " ++ firmware)])

/-- `upload_firmware`, the orchestrator: log current ip/netmask/gateway,
probe the target; if reachable (or probing bypassed) upload to it once;
otherwise prompt for consent, and only when the stripped, lowercased
answer is exactly "y" run the fallback sweep; otherwise return `False`. -/
def upload_firmware (hostname interface firmware : String) (timeout : Nat)
    (no_ping : Bool) (env : Env) (cfg : Cfg) : Bool × List Event :=
  let gii := get_ip_info interface env
  let gdg := get_default_gateway env
  let header := gii.2 ++ gdg.2 ++ print_connection_info hostname gii.1.1 gii.1.2 gdg.1
  let p := ping_host hostname no_ping env cfg 3 1
  if p.1 then
    let u := upload_binary_using_tftp hostname firmware timeout env cfg
    (u.1, header ++ p.2 ++ Event.logi "Router is reachable" :: u.2)
  else
    let ans := pyLower (pyStrip env.consent)
    let ev2 := [Event.logw "Router not reachable with current config",
                Event.prompt "Try default IP configurations? (Y/N): " env.consent]
    if ans ≠ "y" then (false, header ++ p.2 ++ ev2)
    else
      let r := try_default_ip_range interface firmware timeout no_ping env cfg
      (r.1, header ++ p.2 ++ ev2 ++ r.2)

/-- `main` after argument parsing: validate the interface, then the
firmware path (each failure logs and exits with code 1), then run the
orchestrator; a `False` result exits 1 after an error log, success logs
the completion line and the process exits 0. -/
def main (firmware hostname : String) (timeout : Nat) (interface : String)
    (no_ping : Bool) (env : Env) (cfg : Cfg) : Nat × List Event :=
  if ¬ validate_interface interface env then
    (1, [Event.loge ("Interface " ++ interface ++ " not found")])
  else
    let v := validate_firmware_path firmware env
    if ¬ v.1 then (1, v.2)
    else
      let u := upload_firmware hostname interface firmware timeout no_ping env cfg
      if ¬ u.1 then (1, v.2 ++ u.2 ++ [Event.loge "Firmware upload failed"])
      else (0, v.2 ++ u.2 ++ [Event.logi "Firmware upload complete. Please restart your router."])

/-! ## Trace observations -/

/-- The local configuration triple the sweep applies for candidate octet `i`. -/
def candidateCfg (i : Nat) : Cfg :=
  some ("192.168.1." ++ toString i, "24", "192.168.1.1")

/-- Recognises the start marker of a `configure_interface` invocation. -/
def isConfigureEvent : Event → Bool
  | Event.configure _ _ _ _ => true
  | _ => false

/-- Recognises an invocation of the TFTP transfer mechanism. -/
def isUploadEvent : Event → Bool
  | Event.tftpUpload _ _ _ _ _ => true
  | _ => false

/-- Recognises an error-severity log line. -/
def isErrorLog : Event → Bool
  | Event.loge _ => true
  | _ => false

/-- Recognises an OS command that exited with a nonzero code. -/
def isFailedRun : Event → Bool
  | Event.run _ r => decide (r ≠ 0)
  | _ => false

/-- Recognises an ICMP echo command. -/
def isPingRun : Event → Bool
  | Event.run cmd _ => decide (cmd.headD "" = "ping")
  | _ => false

/-- Recognises a network-touching action: any OS command, any interface
reconfiguration, any TFTP session. -/
def isNetworkEvent : Event → Bool
  | Event.run _ _ => true
  | Event.configure _ _ _ _ => true
  | Event.tftpUpload _ _ _ _ _ => true
  | _ => false

/-- The `configure_interface` invocations recorded in a trace. -/
def configuresOf (tr : List Event) : List Event :=
  tr.filter isConfigureEvent

/-- The TFTP invocations recorded in a trace. -/
def uploadsOf (tr : List Event) : List Event :=
  tr.filter isUploadEvent

/-- The ICMP echo commands recorded in a trace. -/
def pingRunsOf (tr : List Event) : List Event :=
  tr.filter isPingRun

/-- The target of an ICMP echo command line, if the command is one. -/
def pingTarget : List String → List String
  | [a, b, c, ip] => if a = "ping" && b = "-c" && c = "1" then [ip] else []
  | _ => []

/-- Scans a trace left to right, accumulating the set of hosts that have
answered an echo so far, and checks that every TFTP invocation targets a
host that has already answered.  This is the "probe before upload"
temporal invariant as a decidable trace predicate. -/
def uploadsGuarded (acc : List String) : List Event → Bool
  | [] => true
  | Event.run cmd r :: rest =>
    uploadsGuarded (if r = 0 then pingTarget cmd ++ acc else acc) rest
  | Event.tftpUpload h _ _ _ _ :: rest => decide (h ∈ acc) && uploadsGuarded acc rest
  | _ :: rest => uploadsGuarded acc rest

/-- The accumulator `uploadsGuarded` reaches after scanning a trace. -/
def pingedAfter (acc : List String) : List Event → List String
  | [] => acc
  | Event.run cmd r :: rest => pingedAfter (if r = 0 then pingTarget cmd ++ acc else acc) rest
  | _ :: rest => pingedAfter acc rest

/-! ## Helper lemmas -/

lemma uploadsGuarded_append (acc : List String) (l1 l2 : List Event) :
    uploadsGuarded acc (l1 ++ l2)
      = (uploadsGuarded acc l1 && uploadsGuarded (pingedAfter acc l1) l2) := by
  induction l1 generalizing acc with
  | nil => simp [uploadsGuarded, pingedAfter]
  | cons e rest ih =>
    cases e <;> simp [uploadsGuarded, pingedAfter, ih, Bool.and_assoc]

lemma pingedAfter_append (acc : List String) (l1 l2 : List Event) :
    pingedAfter acc (l1 ++ l2) = pingedAfter (pingedAfter acc l1) l2 := by
  induction l1 generalizing acc with
  | nil => simp [pingedAfter]
  | cons e rest ih => cases e <;> simp [pingedAfter, ih]

lemma pingedAfter_superset {x : String} {acc : List String} (l : List Event)
    (hx : x ∈ acc) : x ∈ pingedAfter acc l := by
  induction l generalizing acc with
  | nil => simpa [pingedAfter]
  | cons e rest ih =>
    cases e with
    | run cmd r =>
      refine ih ?_
      by_cases hr : r = 0 <;> simp [hr, hx]
    | _ => exact ih hx

lemma uploadsGuarded_of_no_upload {acc : List String} {l : List Event}
    (h : ∀ e ∈ l, isUploadEvent e = false) : uploadsGuarded acc l = true := by
  induction l generalizing acc with
  | nil => rfl
  | cons e rest ih =>
    cases e with
    | tftpUpload h5 p f t r => simpa [isUploadEvent] using h _ (List.mem_cons_self _ _)
    | _ =>
      simp only [uploadsGuarded]
      exact ih fun e he => h e (List.mem_cons_of_mem _ he)

/-- Ping events are only log, echo-command and sleep events. -/
lemma ping_host_loop_events (env : Env) (cfg : Cfg) (ip : String) (delay : Nat) :
    ∀ a k, ∀ e ∈ (ping_host_loop env cfg ip delay a k).2,
      isUploadEvent e = false ∧ isConfigureEvent e = false ∧ isErrorLog e = false := by
  intro a k
  induction k generalizing a with
  | zero => simp [ping_host_loop]
  | succ k ih =>
    intro e he
    by_cases hp : env.pingOk cfg ip a
    · simp [ping_host_loop, hp] at he
      rcases he with rfl | rfl <;> simp [isUploadEvent, isConfigureEvent, isErrorLog]
    · simp [ping_host_loop, hp] at he
      rcases he with rfl | rfl | rfl | he
      · simp [isUploadEvent, isConfigureEvent, isErrorLog]
      · simp [isUploadEvent, isConfigureEvent, isErrorLog]
      · simp [isUploadEvent, isConfigureEvent, isErrorLog]
      · exact ih (a + 1) e he

lemma ping_host_events (ip : String) (no_ping : Bool) (env : Env) (cfg : Cfg)
    (retries delay : Nat) :
    ∀ e ∈ (ping_host ip no_ping env cfg retries delay).2,
      isUploadEvent e = false ∧ isConfigureEvent e = false ∧ isErrorLog e = false := by
  by_cases hnp : no_ping
  · simp [ping_host, hnp]
  · simpa [ping_host, hnp] using ping_host_loop_events env cfg ip delay 0 retries

lemma ping_host_filter_upload (ip : String) (no_ping : Bool) (env : Env) (cfg : Cfg)
    (retries delay : Nat) :
    uploadsOf (ping_host ip no_ping env cfg retries delay).2 = [] := by
  refine List.filter_eq_nil_iff.mpr fun e he => ?_
  simp [(ping_host_events ip no_ping env cfg retries delay e he).1]

lemma ping_host_filter_configure (ip : String) (no_ping : Bool) (env : Env) (cfg : Cfg)
    (retries delay : Nat) :
    configuresOf (ping_host ip no_ping env cfg retries delay).2 = [] := by
  refine List.filter_eq_nil_iff.mpr fun e he => ?_
  simp [(ping_host_events ip no_ping env cfg retries delay e he).2.1]

lemma uploadsGuarded_ping (env : Env) (cfg : Cfg) (ip : String) (no_ping : Bool)
    (retries delay : Nat) (acc : List String) :
    uploadsGuarded acc (ping_host ip no_ping env cfg retries delay).2 = true :=
  uploadsGuarded_of_no_upload fun e he =>
    (ping_host_events ip no_ping env cfg retries delay e he).1

/-- A successful (non-bypassed) probe leaves its target in the accumulator. -/
lemma ping_host_loop_collect (env : Env) (cfg : Cfg) (ip : String) (delay : Nat) :
    ∀ a k (acc : List String), (ping_host_loop env cfg ip delay a k).1 = true →
      ip ∈ pingedAfter acc (ping_host_loop env cfg ip delay a k).2 := by
  intro a k
  induction k generalizing a with
  | zero => simp [ping_host_loop]
  | succ k ih =>
    intro acc hres
    by_cases hp : env.pingOk cfg ip a
    · simp [ping_host_loop, hp, pingedAfter, pingTarget]
    · simp only [ping_host_loop, hp] at hres ⊢
      simp [pingedAfter_append, pingedAfter] at hres ⊢
      exact ih (a + 1) _ hres

lemma ping_host_collect (env : Env) (cfg : Cfg) (ip : String)
    (retries delay : Nat) (acc : List String)
    (hres : (ping_host ip false env cfg retries delay).1 = true) :
    ip ∈ pingedAfter acc (ping_host ip false env cfg retries delay).2 := by
  simp only [ping_host, if_false, Bool.false_eq_true] at hres ⊢
  exact ping_host_loop_collect env cfg ip delay 0 retries acc hres

/-- A `configure_interface` call records exactly one configure marker. -/
lemma configure_filter_configure (interface ip netmask gateway : String)
    (env : Env) (cfg : Cfg) :
    configuresOf (configure_interface interface ip netmask gateway env cfg).2
      = [Event.configure interface ip netmask gateway] := rfl

lemma configure_filter_upload (interface ip netmask gateway : String)
    (env : Env) (cfg : Cfg) :
    uploadsOf (configure_interface interface ip netmask gateway env cfg).2 = [] := rfl

lemma configure_filter_errorLog (interface ip netmask gateway : String)
    (env : Env) (cfg : Cfg) :
    (configure_interface interface ip netmask gateway env cfg).2.filter isErrorLog = [] := rfl

/-- None of the four `ip` commands of a configure call is an echo, so the
accumulator of answered hosts is unchanged by its events. -/
lemma configure_pingedAfter (interface ip netmask gateway : String)
    (env : Env) (cfg : Cfg) (acc : List String) :
    pingedAfter acc (configure_interface interface ip netmask gateway env cfg).2 = acc := by
  simp [configure_interface, pingedAfter, pingTarget]

lemma uploadsGuarded_configure (interface ip netmask gateway : String)
    (env : Env) (cfg : Cfg) (acc : List String) :
    uploadsGuarded acc (configure_interface interface ip netmask gateway env cfg).2 = true := by
  refine uploadsGuarded_of_no_upload fun e he => ?_
  simp [configure_interface] at he
  rcases he with rfl | rfl | rfl | rfl | rfl <;> rfl

/-- The diagnostic header of `upload_firmware`: the two read-only `ip`
commands and the four info lines. -/
lemma header_events (hostname interface : String) (env : Env) :
    ∀ e ∈ (get_ip_info interface env).2 ++ (get_default_gateway env).2 ++
        print_connection_info hostname (env.ipInfo interface).1
          (env.ipInfo interface).2 env.defaultGw,
      isUploadEvent e = false ∧ isConfigureEvent e = false := by
  intro e he
  simp [get_ip_info, get_default_gateway, print_connection_info] at he
  rcases he with rfl | rfl | rfl | rfl | rfl | rfl <;> exact ⟨rfl, rfl⟩

lemma header_pingedAfter (hostname interface : String) (env : Env) (acc : List String) :
    pingedAfter acc ((get_ip_info interface env).2 ++ (get_default_gateway env).2 ++
        print_connection_info hostname (env.ipInfo interface).1
          (env.ipInfo interface).2 env.defaultGw) = acc := by
  simp [get_ip_info, get_default_gateway, print_connection_info, pingedAfter, pingTarget]

/-- The TFTP block records exactly one transfer invocation, carrying the
environment's outcome for it. -/
lemma upload_filter_upload (hostname firmware : String) (timeout : Nat)
    (env : Env) (cfg : Cfg) :
    uploadsOf (upload_binary_using_tftp hostname firmware timeout env cfg).2
      = [Event.tftpUpload hostname 69 firmware timeout
           (env.uploadErr cfg hostname firmware timeout)] := by
  cases h : env.uploadErr cfg hostname firmware timeout <;>
    simp [upload_binary_using_tftp, h, uploadsOf, isUploadEvent]

lemma upload_filter_configure (hostname firmware : String) (timeout : Nat)
    (env : Env) (cfg : Cfg) :
    configuresOf (upload_binary_using_tftp hostname firmware timeout env cfg).2 = [] := by
  cases h : env.uploadErr cfg hostname firmware timeout <;>
    simp [upload_binary_using_tftp, h, configuresOf, isConfigureEvent]

lemma upload_filter_pingRun (hostname firmware : String) (timeout : Nat)
    (env : Env) (cfg : Cfg) :
    pingRunsOf (upload_binary_using_tftp hostname firmware timeout env cfg).2 = [] := by
  cases h : env.uploadErr cfg hostname firmware timeout <;>
    simp [upload_binary_using_tftp, h, pingRunsOf, List.filter_cons, isPingRun]

@[simp] lemma configure_fst (interface ip netmask gateway : String) (env : Env) (cfg : Cfg) :
    (configure_interface interface ip netmask gateway env cfg).1
      = some (ip, netmask, gateway) := rfl

lemma uploadsGuarded_upload (hostname firmware : String) (timeout : Nat)
    (env : Env) (cfg : Cfg) (acc : List String) (hmem : hostname ∈ acc) :
    uploadsGuarded acc (upload_binary_using_tftp hostname firmware timeout env cfg).2 = true := by
  cases h : env.uploadErr cfg hostname firmware timeout <;>
    simp [upload_binary_using_tftp, h, uploadsGuarded, hmem]

@[simp] lemma uploadsOf_append (l1 l2 : List Event) :
    uploadsOf (l1 ++ l2) = uploadsOf l1 ++ uploadsOf l2 :=
  List.filter_append _ _

@[simp] lemma configuresOf_append (l1 l2 : List Event) :
    configuresOf (l1 ++ l2) = configuresOf l1 ++ configuresOf l2 :=
  List.filter_append _ _

@[simp] lemma uploadsOf_nil : uploadsOf [] = [] := rfl

@[simp] lemma configuresOf_nil : configuresOf [] = [] := rfl

@[simp] lemma uploadsOf_cons_run (c : List String) (r : Nat) (l : List Event) :
    uploadsOf (Event.run c r :: l) = uploadsOf l := rfl

@[simp] lemma uploadsOf_cons_logi (s : String) (l : List Event) :
    uploadsOf (Event.logi s :: l) = uploadsOf l := rfl

@[simp] lemma uploadsOf_cons_logw (s : String) (l : List Event) :
    uploadsOf (Event.logw s :: l) = uploadsOf l := rfl

@[simp] lemma uploadsOf_cons_loge (s : String) (l : List Event) :
    uploadsOf (Event.loge s :: l) = uploadsOf l := rfl

@[simp] lemma uploadsOf_cons_configure (i a n g : String) (l : List Event) :
    uploadsOf (Event.configure i a n g :: l) = uploadsOf l := rfl

@[simp] lemma uploadsOf_cons_sleep (n : Nat) (l : List Event) :
    uploadsOf (Event.sleep n :: l) = uploadsOf l := rfl

@[simp] lemma uploadsOf_cons_prompt (q a : String) (l : List Event) :
    uploadsOf (Event.prompt q a :: l) = uploadsOf l := rfl

@[simp] lemma uploadsOf_cons_tftp (h : String) (p : Nat) (f : String) (t : Nat)
    (r : Option String) (l : List Event) :
    uploadsOf (Event.tftpUpload h p f t r :: l)
      = Event.tftpUpload h p f t r :: uploadsOf l := rfl

@[simp] lemma configuresOf_cons_run (c : List String) (r : Nat) (l : List Event) :
    configuresOf (Event.run c r :: l) = configuresOf l := rfl

@[simp] lemma configuresOf_cons_logi (s : String) (l : List Event) :
    configuresOf (Event.logi s :: l) = configuresOf l := rfl

@[simp] lemma configuresOf_cons_logw (s : String) (l : List Event) :
    configuresOf (Event.logw s :: l) = configuresOf l := rfl

@[simp] lemma configuresOf_cons_loge (s : String) (l : List Event) :
    configuresOf (Event.loge s :: l) = configuresOf l := rfl

@[simp] lemma configuresOf_cons_configure (i a n g : String) (l : List Event) :
    configuresOf (Event.configure i a n g :: l)
      = Event.configure i a n g :: configuresOf l := rfl

@[simp] lemma configuresOf_cons_sleep (n : Nat) (l : List Event) :
    configuresOf (Event.sleep n :: l) = configuresOf l := rfl

@[simp] lemma configuresOf_cons_prompt (q a : String) (l : List Event) :
    configuresOf (Event.prompt q a :: l) = configuresOf l := rfl

@[simp] lemma configuresOf_cons_tftp (h : String) (p : Nat) (f : String) (t : Nat)
    (r : Option String) (l : List Event) :
    configuresOf (Event.tftpUpload h p f t r :: l) = configuresOf l := rfl

@[simp] lemma pingRunsOf_nil : pingRunsOf [] = [] := rfl

@[simp] lemma pingRunsOf_append (l1 l2 : List Event) :
    pingRunsOf (l1 ++ l2) = pingRunsOf l1 ++ pingRunsOf l2 :=
  List.filter_append _ _

@[simp] lemma pingRunsOf_cons_run (c : List String) (r : Nat) (l : List Event) :
    pingRunsOf (Event.run c r :: l)
      = if c.headD "" = "ping" then Event.run c r :: pingRunsOf l
        else pingRunsOf l := by
  simp [pingRunsOf, List.filter_cons, isPingRun]

@[simp] lemma pingRunsOf_cons_logi (s : String) (l : List Event) :
    pingRunsOf (Event.logi s :: l) = pingRunsOf l := rfl

@[simp] lemma pingRunsOf_cons_logw (s : String) (l : List Event) :
    pingRunsOf (Event.logw s :: l) = pingRunsOf l := rfl

@[simp] lemma pingRunsOf_cons_loge (s : String) (l : List Event) :
    pingRunsOf (Event.loge s :: l) = pingRunsOf l := rfl

@[simp] lemma pingRunsOf_cons_configure (i a n g : String) (l : List Event) :
    pingRunsOf (Event.configure i a n g :: l) = pingRunsOf l := rfl

@[simp] lemma pingRunsOf_cons_sleep (n : Nat) (l : List Event) :
    pingRunsOf (Event.sleep n :: l) = pingRunsOf l := rfl

@[simp] lemma pingRunsOf_cons_prompt (q a : String) (l : List Event) :
    pingRunsOf (Event.prompt q a :: l) = pingRunsOf l := rfl

@[simp] lemma pingRunsOf_cons_tftp (h : String) (p : Nat) (f : String) (t : Nat)
    (r : Option String) (l : List Event) :
    pingRunsOf (Event.tftpUpload h p f t r :: l) = pingRunsOf l := rfl

@[simp] lemma uploadsOf_ip_info (interface : String) (env : Env) :
    uploadsOf (get_ip_info interface env).2 = [] := rfl

@[simp] lemma configuresOf_ip_info (interface : String) (env : Env) :
    configuresOf (get_ip_info interface env).2 = [] := rfl

@[simp] lemma uploadsOf_gateway (env : Env) :
    uploadsOf (get_default_gateway env).2 = [] := rfl

@[simp] lemma configuresOf_gateway (env : Env) :
    configuresOf (get_default_gateway env).2 = [] := rfl

@[simp] lemma uploadsOf_print (h i n g : String) :
    uploadsOf (print_connection_info h i n g) = [] := rfl

@[simp] lemma configuresOf_print (h i n g : String) :
    configuresOf (print_connection_info h i n g) = [] := rfl

/-! ## The claims -/

/-- C6: for every target host, firmware path and timeout, the upload
attempt returns success exactly when the underlying TFTP transfer
mechanism reports no error, and every reported transfer error, whatever
its cause, yields failure with the original error text retained in the
error log — the error is neither swallowed silently nor re-raised. -/
theorem tftp_result_iff_no_transfer_error (hostname firmware : String) (timeout : Nat)
    (env : Env) (cfg : Cfg) :
    ((upload_binary_using_tftp hostname firmware timeout env cfg).1 = true
        ↔ env.uploadErr cfg hostname firmware timeout = none)
      ∧ ∀ e, env.uploadErr cfg hostname firmware timeout = some e →
          (upload_binary_using_tftp hostname firmware timeout env cfg).1 = false
          ∧ Event.loge ("TFTP upload failed: " ++ e)
              ∈ (upload_binary_using_tftp hostname firmware timeout env cfg).2 := by
  cases h : env.uploadErr cfg hostname firmware timeout <;>
    simp [upload_binary_using_tftp, h]

/-- Environment for the C6 witness: every transfer raises "boom". -/
def c6Env : Env :=
  ⟨fun _ _ _ => true, fun _ => 0, fun _ _ _ _ => some "boom", "n",
   fun _ => ("", ""), "", fun _ => true, fun _ => true⟩

/-- C6 witness: a concrete failing transfer returns failure and logs the
original error text. -/
theorem tftp_result_iff_no_transfer_error_check :
    (upload_binary_using_tftp "192.168.1.1" "/fw.bin" 120 c6Env none).1 = false
    ∧ Event.loge ("TFTP upload failed: " ++ "boom")
        ∈ (upload_binary_using_tftp "192.168.1.1" "/fw.bin" 120 c6Env none).2 :=
  (tftp_result_iff_no_transfer_error "192.168.1.1" "/fw.bin" 120 c6Env none).2 "boom" rfl

/-- C1: whenever the probe of the caller-specified target succeeds (which
includes the probing-bypass case), the orchestrator performs exactly one
TFTP invocation, against the original target host, never invokes the
interface configurator (so the fallback range is never consulted), and
returns exactly the uploader's result. -/
theorem upload_firmware_direct_reachable
    (hostname interface firmware : String) (timeout : Nat) (no_ping : Bool)
    (env : Env) (cfg : Cfg)
    (hping : (ping_host hostname no_ping env cfg 3 1).1 = true) :
    (upload_firmware hostname interface firmware timeout no_ping env cfg).1
        = (upload_binary_using_tftp hostname firmware timeout env cfg).1
      ∧ uploadsOf (upload_firmware hostname interface firmware timeout no_ping env cfg).2
        = [Event.tftpUpload hostname 69 firmware timeout
             (env.uploadErr cfg hostname firmware timeout)]
      ∧ configuresOf (upload_firmware hostname interface firmware timeout no_ping env cfg).2
        = [] := by
  refine ⟨?_, ?_, ?_⟩ <;>
    simp [upload_firmware, hping, ping_host_filter_upload, ping_host_filter_configure,
      upload_filter_upload, upload_filter_configure]

/-- Environment for the C1 witness: every echo answers, transfers succeed. -/
def c1Env : Env :=
  ⟨fun _ _ _ => true, fun _ => 0, fun _ _ _ _ => none, "n",
   fun _ => ("10.0.0.2", "24"), "10.0.0.1", fun _ => true, fun _ => true⟩

/-- C1 witness at a concrete reachable target. -/
theorem upload_firmware_direct_reachable_check :
    (ping_host "192.168.1.1" false c1Env none 3 1).1 = true
    ∧ ((upload_firmware "192.168.1.1" "eth0" "/fw.bin" 120 false c1Env none).1
          = (upload_binary_using_tftp "192.168.1.1" "/fw.bin" 120 c1Env none).1
        ∧ uploadsOf (upload_firmware "192.168.1.1" "eth0" "/fw.bin" 120 false c1Env none).2
          = [Event.tftpUpload "192.168.1.1" 69 "/fw.bin" 120
               (c1Env.uploadErr none "192.168.1.1" "/fw.bin" 120)]
        ∧ configuresOf (upload_firmware "192.168.1.1" "eth0" "/fw.bin" 120 false c1Env none).2
          = []) :=
  ⟨by decide,
   upload_firmware_direct_reachable "192.168.1.1" "eth0" "/fw.bin" 120 false c1Env none
     (by decide)⟩

/-- An unreachable target plus a non-"y" answer: the orchestrator stops
with failure and a mutation-free tail. -/
lemma upload_firmware_declined
    (hostname interface firmware : String) (timeout : Nat) (no_ping : Bool)
    (env : Env) (cfg : Cfg)
    (hping : (ping_host hostname no_ping env cfg 3 1).1 = false)
    (hans : pyLower (pyStrip env.consent) ≠ "y") :
    (upload_firmware hostname interface firmware timeout no_ping env cfg).1 = false
      ∧ configuresOf (upload_firmware hostname interface firmware timeout no_ping env cfg).2
        = []
      ∧ uploadsOf (upload_firmware hostname interface firmware timeout no_ping env cfg).2
        = [] := by
  refine ⟨?_, ?_, ?_⟩ <;>
    simp [upload_firmware, hping, hans, ping_host_filter_upload, ping_host_filter_configure]

/-- C5: when the direct probe fails and the operator's stripped,
lowercased answer is anything other than "y", the orchestrator returns
failure and the interface configurator is never invoked. -/
theorem consent_denied_no_configure
    (hostname interface firmware : String) (timeout : Nat) (no_ping : Bool)
    (env : Env) (cfg : Cfg)
    (hping : (ping_host hostname no_ping env cfg 3 1).1 = false)
    (hans : pyLower (pyStrip env.consent) ≠ "y") :
    (upload_firmware hostname interface firmware timeout no_ping env cfg).1 = false
      ∧ configuresOf (upload_firmware hostname interface firmware timeout no_ping env cfg).2
        = []
      ∧ uploadsOf (upload_firmware hostname interface firmware timeout no_ping env cfg).2
        = [] :=
  upload_firmware_declined hostname interface firmware timeout no_ping env cfg hping hans

/-- Environment for the C5 witness: no echo ever answers, consent "n". -/
def c5Env : Env :=
  ⟨fun _ _ _ => false, fun _ => 0, fun _ _ _ _ => none, "n",
   fun _ => ("", ""), "", fun _ => true, fun _ => true⟩

/-- C5 witness: unreachable target plus a declined prompt gives failure
with no interface configuration. -/
theorem consent_denied_no_configure_check :
    (ping_host "192.168.1.1" false c5Env none 3 1).1 = false
    ∧ pyLower (pyStrip c5Env.consent) ≠ "y"
    ∧ ((upload_firmware "192.168.1.1" "eth0" "/fw.bin" 120 false c5Env none).1 = false
        ∧ configuresOf (upload_firmware "192.168.1.1" "eth0" "/fw.bin" 120 false c5Env none).2
          = []
        ∧ uploadsOf (upload_firmware "192.168.1.1" "eth0" "/fw.bin" 120 false c5Env none).2
          = []) :=
  ⟨by decide, by decide,
   consent_denied_no_configure "192.168.1.1" "eth0" "/fw.bin" 120 false c5Env none
     (by decide) (by decide)⟩

/-- C10: with probing bypassed (`no_ping`), the sweep's internal probe is
bypassed as well, so the sweep configures the interface exactly once — to
the first candidate 192.168.1.2 — sends no echo at all, immediately runs
one TFTP invocation against 192.168.1.1, and returns its result;
candidates 192.168.1.3 through 192.168.1.25 are never tried. -/
theorem sweep_no_ping_first_candidate (interface firmware : String) (timeout : Nat)
    (env : Env) (cfg : Cfg) :
    (try_default_ip_range interface firmware timeout true env cfg).1
        = (upload_binary_using_tftp "192.168.1.1" firmware timeout env (candidateCfg 2)).1
      ∧ configuresOf (try_default_ip_range interface firmware timeout true env cfg).2
        = [Event.configure interface "192.168.1.2" "24" "192.168.1.1"]
      ∧ uploadsOf (try_default_ip_range interface firmware timeout true env cfg).2
        = [Event.tftpUpload "192.168.1.1" 69 firmware timeout
             (env.uploadErr (candidateCfg 2) "192.168.1.1" firmware timeout)]
      ∧ pingRunsOf (try_default_ip_range interface firmware timeout true env cfg).2 = [] := by
  have hr : List.range' 2 24 = 2 :: List.range' 3 23 := rfl
  have h2 : ("192.168.1." ++ toString 2 : String) = "192.168.1.2" := rfl
  refine ⟨?_, ?_, ?_, ?_⟩ <;>
    simp [try_default_ip_range, hr, try_default_ip_range_loop, ping_host, h2, candidateCfg,
      configure_interface, upload_filter_upload, upload_filter_configure, upload_filter_pingRun]

/-- When the gateway probe fails for every in-range candidate
configuration, the sweep loop walks its whole list, configures once per
element, and never uploads. -/
lemma sweep_loop_all_fail (interface firmware : String) (timeout : Nat) (no_ping : Bool)
    (env : Env)
    (hfail : ∀ i, 2 ≤ i → i ≤ 25 →
      (ping_host "192.168.1.1" no_ping env (candidateCfg i) 3 1).1 = false) :
    ∀ (l : List Nat), (∀ i ∈ l, 2 ≤ i ∧ i ≤ 25) → ∀ cfg : Cfg,
      (try_default_ip_range_loop interface firmware timeout no_ping env cfg l).1 = false
      ∧ configuresOf (try_default_ip_range_loop interface firmware timeout no_ping env cfg l).2
        = l.map (fun i =>
            Event.configure interface ("192.168.1." ++ toString i) "24" "192.168.1.1")
      ∧ uploadsOf (try_default_ip_range_loop interface firmware timeout no_ping env cfg l).2
        = [] := by
  intro l
  induction l with
  | nil => intro _ cfg; simp [try_default_ip_range_loop]
  | cons i rest ih =>
    intro hbound cfg
    have hi := hbound i (List.mem_cons_self i rest)
    have hp := hfail i hi.1 hi.2
    have hrec := ih (fun j hj => hbound j (List.mem_cons_of_mem _ hj)) (candidateCfg i)
    simp only [candidateCfg] at hp hrec
    refine ⟨?_, ?_, ?_⟩ <;>
      simp [try_default_ip_range_loop, configure_interface, hp, hrec.1, hrec.2.1, hrec.2.2,
        ping_host_filter_configure, ping_host_filter_upload]

/-- C3: if the fallback sweep runs and the gateway probe fails under every
one of the 24 candidate configurations, then the configurator is invoked
exactly 24 times — once per candidate 192.168.1.2 .. 192.168.1.25 in
increasing order, each with netmask 24 and gateway 192.168.1.1 — the
uploader is never invoked, and the sweep returns failure. -/
theorem sweep_all_candidates_fail (interface firmware : String) (timeout : Nat)
    (no_ping : Bool) (env : Env) (cfg : Cfg)
    (hfail : ∀ i, 2 ≤ i → i ≤ 25 →
      (ping_host "192.168.1.1" no_ping env (candidateCfg i) 3 1).1 = false) :
    (try_default_ip_range interface firmware timeout no_ping env cfg).1 = false
      ∧ configuresOf (try_default_ip_range interface firmware timeout no_ping env cfg).2
        = (List.range' 2 24).map (fun i =>
            Event.configure interface ("192.168.1." ++ toString i) "24" "192.168.1.1")
      ∧ (configuresOf (try_default_ip_range interface firmware timeout no_ping env cfg).2).length
        = 24
      ∧ uploadsOf (try_default_ip_range interface firmware timeout no_ping env cfg).2 = [] := by
  have h := sweep_loop_all_fail interface firmware timeout no_ping env hfail
    (List.range' 2 24) (by decide) cfg
  rw [try_default_ip_range]
  exact ⟨h.1, h.2.1, by rw [h.2.1]; simp, h.2.2⟩

/-- Environment for the C3 witness: no echo ever answers. -/
def c3Env : Env :=
  ⟨fun _ _ _ => false, fun _ => 0, fun _ _ _ _ => none, "y",
   fun _ => ("", ""), "", fun _ => true, fun _ => true⟩

/-- C3 witness: a concrete exhausted sweep. -/
theorem sweep_all_candidates_fail_check :
    (try_default_ip_range "eth0" "/fw.bin" 120 false c3Env none).1 = false
      ∧ configuresOf (try_default_ip_range "eth0" "/fw.bin" 120 false c3Env none).2
        = (List.range' 2 24).map (fun i =>
            Event.configure "eth0" ("192.168.1." ++ toString i) "24" "192.168.1.1")
      ∧ (configuresOf (try_default_ip_range "eth0" "/fw.bin" 120 false c3Env none).2).length
        = 24
      ∧ uploadsOf (try_default_ip_range "eth0" "/fw.bin" 120 false c3Env none).2 = [] :=
  sweep_all_candidates_fail "eth0" "/fw.bin" 120 false c3Env none (fun _ _ _ => rfl)

/-- When candidate `n` is the first whose configuration makes the gateway
probe succeed, the sweep loop stops there: it configures candidates up to
`n` only, uploads once to the gateway, and returns the upload's result. -/
lemma sweep_loop_first_success (interface firmware : String) (timeout : Nat)
    (no_ping : Bool) (env : Env) (n : Nat)
    (hsucc : (ping_host "192.168.1.1" no_ping env (candidateCfg n) 3 1).1 = true)
    (hfail : ∀ i, 2 ≤ i → i < n →
      (ping_host "192.168.1.1" no_ping env (candidateCfg i) 3 1).1 = false) :
    ∀ (k m : Nat) (cfg : Cfg), 2 ≤ m → m ≤ n → n < m + k →
      (try_default_ip_range_loop interface firmware timeout no_ping env cfg
          (List.range' m k)).1
        = (upload_binary_using_tftp "192.168.1.1" firmware timeout env (candidateCfg n)).1
      ∧ configuresOf (try_default_ip_range_loop interface firmware timeout no_ping env cfg
          (List.range' m k)).2
        = (List.range' m (n + 1 - m)).map (fun i =>
            Event.configure interface ("192.168.1." ++ toString i) "24" "192.168.1.1")
      ∧ uploadsOf (try_default_ip_range_loop interface firmware timeout no_ping env cfg
          (List.range' m k)).2
        = [Event.tftpUpload "192.168.1.1" 69 firmware timeout
             (env.uploadErr (candidateCfg n) "192.168.1.1" firmware timeout)] := by
  intro k
  induction k with
  | zero => intro m cfg _ h1 h2; exact absurd h2 (by omega)
  | succ k ih =>
    intro m cfg hm2 h1 h2
    rw [List.range'_succ]
    by_cases hm : m = n
    · subst hm
      have hs := hsucc
      simp only [candidateCfg] at hs
      have hone : m + 1 - m = 1 := by omega
      rw [hone, List.range'_one]
      refine ⟨?_, ?_, ?_⟩ <;>
        simp [try_default_ip_range_loop, configure_interface, hs, candidateCfg,
          ping_host_filter_configure, ping_host_filter_upload,
          upload_filter_upload, upload_filter_configure]
    · have hmn : m < n := lt_of_le_of_ne h1 hm
      have hp := hfail m hm2 hmn
      have hrec := ih (m + 1) (candidateCfg m) (by omega) (by omega) (by omega)
      have e1 : n + 1 - m = (n + 1 - (m + 1)) + 1 := by omega
      rw [e1, List.range'_succ]
      simp only [candidateCfg] at hp hrec
      refine ⟨?_, ?_, ?_⟩ <;>
        simp [try_default_ip_range_loop, configure_interface, candidateCfg, hp,
          hrec.1, hrec.2.1, hrec.2.2,
          ping_host_filter_configure, ping_host_filter_upload]

/-- C4: if the `n`-th candidate is the first under whose configuration the
probe of the fixed gateway 192.168.1.1 succeeds, the sweep invokes the
uploader exactly once, against the gateway address (not the candidate
address), terminates with the uploader's result whatever it is, and never
configures a candidate beyond `n`. -/
theorem sweep_first_reachable_candidate (interface firmware : String) (timeout : Nat)
    (no_ping : Bool) (env : Env) (cfg : Cfg) (n : Nat)
    (hn1 : 2 ≤ n) (hn2 : n ≤ 25)
    (hsucc : (ping_host "192.168.1.1" no_ping env (candidateCfg n) 3 1).1 = true)
    (hfail : ∀ i, 2 ≤ i → i < n →
      (ping_host "192.168.1.1" no_ping env (candidateCfg i) 3 1).1 = false) :
    (try_default_ip_range interface firmware timeout no_ping env cfg).1
        = (upload_binary_using_tftp "192.168.1.1" firmware timeout env (candidateCfg n)).1
      ∧ configuresOf (try_default_ip_range interface firmware timeout no_ping env cfg).2
        = (List.range' 2 (n - 1)).map (fun i =>
            Event.configure interface ("192.168.1." ++ toString i) "24" "192.168.1.1")
      ∧ uploadsOf (try_default_ip_range interface firmware timeout no_ping env cfg).2
        = [Event.tftpUpload "192.168.1.1" 69 firmware timeout
             (env.uploadErr (candidateCfg n) "192.168.1.1" firmware timeout)] := by
  have h := sweep_loop_first_success interface firmware timeout no_ping env n hsucc hfail
    24 2 cfg (by omega) hn1 (by omega)
  have e : n + 1 - 2 = n - 1 := by omega
  rw [e] at h
  exact ⟨h.1, h.2.1, h.2.2⟩

/-- Environment for the C4 witness: the gateway answers exactly under the
fifth candidate's configuration. -/
def c4Env : Env :=
  ⟨fun cfg _ _ => decide (cfg = candidateCfg 5), fun _ => 0, fun _ _ _ _ => none, "y",
   fun _ => ("", ""), "", fun _ => true, fun _ => true⟩

/-- C4 witness: the sweep stops at candidate 192.168.1.5 and uploads once
to the gateway. -/
theorem sweep_first_reachable_candidate_check :
    (try_default_ip_range "eth0" "/fw.bin" 120 false c4Env none).1
        = (upload_binary_using_tftp "192.168.1.1" "/fw.bin" 120 c4Env (candidateCfg 5)).1
      ∧ configuresOf (try_default_ip_range "eth0" "/fw.bin" 120 false c4Env none).2
        = (List.range' 2 (5 - 1)).map (fun i =>
            Event.configure "eth0" ("192.168.1." ++ toString i) "24" "192.168.1.1")
      ∧ uploadsOf (try_default_ip_range "eth0" "/fw.bin" 120 false c4Env none).2
        = [Event.tftpUpload "192.168.1.1" 69 "/fw.bin" 120
             (c4Env.uploadErr (candidateCfg 5) "192.168.1.1" "/fw.bin" 120)] :=
  sweep_first_reachable_candidate "eth0" "/fw.bin" 120 false c4Env none 5
    (by decide) (by decide) (by decide)
    (by
      intro i h1 h2
      have hi : i = 2 ∨ i = 3 ∨ i = 4 := by omega
      rcases hi with rfl | rfl | rfl <;> decide)

@[simp] lemma uploadsGuarded_nil (acc : List String) : uploadsGuarded acc [] = true := rfl

@[simp] lemma uploadsGuarded_cons_logi (acc : List String) (s : String) (l : List Event) :
    uploadsGuarded acc (Event.logi s :: l) = uploadsGuarded acc l := rfl

@[simp] lemma uploadsGuarded_cons_logw (acc : List String) (s : String) (l : List Event) :
    uploadsGuarded acc (Event.logw s :: l) = uploadsGuarded acc l := rfl

@[simp] lemma uploadsGuarded_cons_loge (acc : List String) (s : String) (l : List Event) :
    uploadsGuarded acc (Event.loge s :: l) = uploadsGuarded acc l := rfl

@[simp] lemma uploadsGuarded_cons_configure (acc : List String) (i a n g : String)
    (l : List Event) :
    uploadsGuarded acc (Event.configure i a n g :: l) = uploadsGuarded acc l := rfl

@[simp] lemma uploadsGuarded_cons_sleep (acc : List String) (n : Nat) (l : List Event) :
    uploadsGuarded acc (Event.sleep n :: l) = uploadsGuarded acc l := rfl

@[simp] lemma uploadsGuarded_cons_prompt (acc : List String) (q a : String) (l : List Event) :
    uploadsGuarded acc (Event.prompt q a :: l) = uploadsGuarded acc l := rfl

@[simp] lemma pingedAfter_nil (acc : List String) : pingedAfter acc [] = acc := rfl

@[simp] lemma pingedAfter_cons_logi (acc : List String) (s : String) (l : List Event) :
    pingedAfter acc (Event.logi s :: l) = pingedAfter acc l := rfl

@[simp] lemma pingedAfter_cons_logw (acc : List String) (s : String) (l : List Event) :
    pingedAfter acc (Event.logw s :: l) = pingedAfter acc l := rfl

@[simp] lemma pingedAfter_cons_loge (acc : List String) (s : String) (l : List Event) :
    pingedAfter acc (Event.loge s :: l) = pingedAfter acc l := rfl

@[simp] lemma pingedAfter_cons_configure (acc : List String) (i a n g : String)
    (l : List Event) :
    pingedAfter acc (Event.configure i a n g :: l) = pingedAfter acc l := rfl

@[simp] lemma pingedAfter_cons_sleep (acc : List String) (n : Nat) (l : List Event) :
    pingedAfter acc (Event.sleep n :: l) = pingedAfter acc l := rfl

@[simp] lemma pingedAfter_cons_prompt (acc : List String) (q a : String) (l : List Event) :
    pingedAfter acc (Event.prompt q a :: l) = pingedAfter acc l := rfl

@[simp] lemma pingedAfter_cons_tftp (acc : List String) (h : String) (p : Nat) (f : String)
    (t : Nat) (r : Option String) (l : List Event) :
    pingedAfter acc (Event.tftpUpload h p f t r :: l) = pingedAfter acc l := rfl

@[simp] lemma uploadsGuarded_ip_info (acc : List String) (interface : String) (env : Env) :
    uploadsGuarded acc (get_ip_info interface env).2 = true := by
  simp [get_ip_info, uploadsGuarded]

@[simp] lemma uploadsGuarded_gateway (acc : List String) (env : Env) :
    uploadsGuarded acc (get_default_gateway env).2 = true := by
  simp [get_default_gateway, uploadsGuarded]

@[simp] lemma uploadsGuarded_print (acc : List String) (h i n g : String) :
    uploadsGuarded acc (print_connection_info h i n g) = true := rfl

@[simp] lemma pingedAfter_ip_info (acc : List String) (interface : String) (env : Env) :
    pingedAfter acc (get_ip_info interface env).2 = acc := by
  simp [get_ip_info, pingedAfter, pingTarget]

@[simp] lemma pingedAfter_gateway (acc : List String) (env : Env) :
    pingedAfter acc (get_default_gateway env).2 = acc := by
  simp [get_default_gateway, pingedAfter, pingTarget]

@[simp] lemma pingedAfter_print (acc : List String) (h i n g : String) :
    pingedAfter acc (print_connection_info h i n g) = acc := rfl

/-- Every TFTP invocation made by the (probing-enabled) sweep loop is
preceded by a successful echo of its target. -/
lemma sweep_loop_guarded (interface firmware : String) (timeout : Nat) (env : Env) :
    ∀ (l : List Nat) (cfg : Cfg) (acc : List String),
      uploadsGuarded acc
        (try_default_ip_range_loop interface firmware timeout false env cfg l).2 = true := by
  intro l
  induction l with
  | nil => intro cfg acc; rfl
  | cons i rest ih =>
    intro cfg acc
    by_cases hp : (ping_host "192.168.1.1" false env
        (some ("192.168.1." ++ toString i, "24", "192.168.1.1")) 3 1).1 = true
    · simp only [try_default_ip_range_loop, configure_fst, hp, if_true]
      rw [uploadsGuarded_append]
      rw [uploadsGuarded_configure, configure_pingedAfter, Bool.true_and,
        uploadsGuarded_cons_sleep, uploadsGuarded_append, uploadsGuarded_ping,
        Bool.true_and]
      exact uploadsGuarded_upload _ _ _ _ _ _
        (ping_host_collect env _ "192.168.1.1" 3 1 acc hp)
    · simp only [try_default_ip_range_loop, configure_fst, hp, Bool.false_eq_true, if_false]
      rw [uploadsGuarded_append]
      rw [uploadsGuarded_configure, configure_pingedAfter, Bool.true_and,
        uploadsGuarded_cons_sleep, uploadsGuarded_append, uploadsGuarded_ping,
        Bool.true_and]
      exact ih _ _

/-- C2: in a probing-enabled run, every upload the orchestrator performs —
on the direct path against the target host and on the fallback path
against the fixed gateway 192.168.1.1 — is preceded, earlier in the
trace, by a successful echo of that same host; the uploader is never
invoked for a host whose probe failed. -/
theorem uploads_only_after_probe (hostname interface firmware : String) (timeout : Nat)
    (env : Env) (cfg : Cfg) :
    uploadsGuarded []
      (upload_firmware hostname interface firmware timeout false env cfg).2 = true := by
  by_cases hp : (ping_host hostname false env cfg 3 1).1 = true
  · simp only [upload_firmware, hp, if_true]
    simp only [uploadsGuarded_append, pingedAfter_append, uploadsGuarded_ip_info,
      uploadsGuarded_gateway, uploadsGuarded_print, pingedAfter_ip_info,
      pingedAfter_gateway, pingedAfter_print, Bool.true_and, uploadsGuarded_ping,
      uploadsGuarded_cons_logi]
    exact uploadsGuarded_upload _ _ _ _ _ _
      (ping_host_collect env cfg hostname 3 1 [] hp)
  · by_cases hans : pyLower (pyStrip env.consent) = "y"
    · simp [upload_firmware, hp, hans, uploadsGuarded_append, pingedAfter_append,
        uploadsGuarded_ping, try_default_ip_range, sweep_loop_guarded]
    · simp [upload_firmware, hp, hans, uploadsGuarded_append, pingedAfter_append,
        uploadsGuarded_ping]

/-- Environment for the C2 witness: everything answers and transfers
succeed. -/
def c2Env : Env :=
  ⟨fun _ _ _ => true, fun _ => 0, fun _ _ _ _ => none, "n",
   fun _ => ("10.0.0.2", "24"), "10.0.0.1", fun _ => true, fun _ => true⟩

/-- C2 witness at a concrete run. -/
theorem uploads_only_after_probe_check :
    uploadsGuarded []
      (upload_firmware "192.168.1.1" "eth0" "/fw.bin" 120 false c2Env none).2 = true :=
  uploads_only_after_probe "192.168.1.1" "eth0" "/fw.bin" 120 c2Env none

/-- The same environment with the OS exit codes replaced: used to state
that the program's control flow never consults them. -/
def withRunRet (env : Env) (f : List String → Nat) : Env :=
  ⟨env.pingOk, f, env.uploadErr, env.consent, env.ipInfo, env.defaultGw,
   env.ifaceExists, env.isFile⟩

@[simp] lemma withRunRet_pingOk (env : Env) (f : List String → Nat) :
    (withRunRet env f).pingOk = env.pingOk := rfl

@[simp] lemma withRunRet_runRet (env : Env) (f : List String → Nat) :
    (withRunRet env f).runRet = f := rfl

@[simp] lemma withRunRet_uploadErr (env : Env) (f : List String → Nat) :
    (withRunRet env f).uploadErr = env.uploadErr := rfl

lemma ping_host_loop_runRet (env : Env) (f : List String → Nat) (cfg : Cfg)
    (ip : String) (delay : Nat) :
    ∀ a k, ping_host_loop (withRunRet env f) cfg ip delay a k
      = ping_host_loop env cfg ip delay a k := by
  intro a k
  induction k generalizing a with
  | zero => rfl
  | succ k ih => simp [ping_host_loop, ih]

lemma ping_host_runRet (env : Env) (f : List String → Nat) (cfg : Cfg)
    (ip : String) (no_ping : Bool) (retries delay : Nat) :
    ping_host ip no_ping (withRunRet env f) cfg retries delay
      = ping_host ip no_ping env cfg retries delay := by
  by_cases hnp : no_ping <;> simp [ping_host, hnp, ping_host_loop_runRet]

lemma upload_runRet (env : Env) (f : List String → Nat) (cfg : Cfg)
    (hostname firmware : String) (timeout : Nat) :
    upload_binary_using_tftp hostname firmware timeout (withRunRet env f) cfg
      = upload_binary_using_tftp hostname firmware timeout env cfg := rfl

/-- The result and the TFTP invocations of the sweep loop do not depend on
the exit codes of the OS configuration commands. -/
lemma sweep_loop_runRet_independent (interface firmware : String) (timeout : Nat)
    (no_ping : Bool) (env : Env) (f : List String → Nat) :
    ∀ (l : List Nat) (cfg : Cfg),
      (try_default_ip_range_loop interface firmware timeout no_ping
          (withRunRet env f) cfg l).1
        = (try_default_ip_range_loop interface firmware timeout no_ping env cfg l).1
      ∧ uploadsOf (try_default_ip_range_loop interface firmware timeout no_ping
          (withRunRet env f) cfg l).2
        = uploadsOf (try_default_ip_range_loop interface firmware timeout no_ping
            env cfg l).2 := by
  intro l
  induction l with
  | nil => intro cfg; exact ⟨rfl, rfl⟩
  | cons i rest ih =>
    intro cfg
    by_cases hp : (ping_host "192.168.1.1" no_ping env
        (some ("192.168.1." ++ toString i, "24", "192.168.1.1")) 3 1).1 = true
    · refine ⟨?_, ?_⟩ <;>
        simp [try_default_ip_range_loop, ping_host_runRet, upload_runRet, hp,
          configure_interface, ping_host_filter_upload, upload_filter_upload]
    · refine ⟨?_, ?_⟩ <;>
        simp [try_default_ip_range_loop, ping_host_runRet, upload_runRet, hp,
          configure_interface, ping_host_filter_upload,
          (ih _).1, (ih _).2]

/-- Environment for the C7 counterexample: every OS command exits
nonzero, yet echoes answer and the transfer succeeds. -/
def c7Env : Env :=
  ⟨fun _ _ _ => true, fun _ => 1, fun _ _ _ _ => none, "y",
   fun _ => ("", ""), "", fun _ => true, fun _ => true⟩

/-- C7 counterexample: in a concrete sweep in which every underlying OS
call of `configure_interface` fails (exits nonzero), no failure is logged
at error severity, nothing is reported to the caller, and the sweep goes
on to probe and even upload with the failed configuration instead of
moving past the candidate. -/
theorem configure_failure_silently_ignored_cex :
    (try_default_ip_range "eth0" "/fw.bin" 120 false c7Env none).2.filter isFailedRun ≠ []
    ∧ (try_default_ip_range "eth0" "/fw.bin" 120 false c7Env none).2.filter isErrorLog = []
    ∧ uploadsOf (try_default_ip_range "eth0" "/fw.bin" 120 false c7Env none).2
        = [Event.tftpUpload "192.168.1.1" 69 "/fw.bin" 120 none] := by
  refine ⟨?_, ?_, ?_⟩ <;> decide

/-- C7 (amended): `configure_interface` issues its four OS commands
without inspecting their exit status: a failing OS call is never logged
at error severity and the function reports nothing to its caller, and
consequently the fallback sweep's control flow — which candidates it
tries, whether and what it uploads, and its result — is entirely
independent of those exit codes; a candidate is abandoned only when the
gateway probe fails, regardless of whether its configuration commands
succeeded. -/
theorem configure_failure_ignored (interface ip netmask gateway firmware : String)
    (timeout : Nat) (no_ping : Bool) (env : Env) (cfg : Cfg) (f : List String → Nat) :
    (configure_interface interface ip netmask gateway env cfg).2.filter isErrorLog = []
    ∧ (try_default_ip_range interface firmware timeout no_ping (withRunRet env f) cfg).1
        = (try_default_ip_range interface firmware timeout no_ping env cfg).1
    ∧ uploadsOf (try_default_ip_range interface firmware timeout no_ping
          (withRunRet env f) cfg).2
        = uploadsOf (try_default_ip_range interface firmware timeout no_ping env cfg).2 := by
  refine ⟨configure_filter_errorLog interface ip netmask gateway env cfg, ?_, ?_⟩
  · exact (sweep_loop_runRet_independent interface firmware timeout no_ping env f
      (List.range' 2 24) cfg).1
  · exact (sweep_loop_runRet_independent interface firmware timeout no_ping env f
      (List.range' 2 24) cfg).2

/-- C8: a firmware path that is not an existing regular file fails
validation, makes the process exit with code 1, and no network-touching
action of any kind — no OS command, no interface configuration, no probe,
no TFTP session — appears in the trace. -/
theorem bad_firmware_no_network_mutation (firmware hostname : String) (timeout : Nat)
    (interface : String) (no_ping : Bool) (env : Env) (cfg : Cfg)
    (hfile : env.isFile firmware = false) :
    (validate_firmware_path firmware env).1 = false
    ∧ (main firmware hostname timeout interface no_ping env cfg).1 = 1
    ∧ (main firmware hostname timeout interface no_ping env cfg).2.filter isNetworkEvent
        = [] := by
  by_cases hi : env.ifaceExists interface = true <;>
    refine ⟨?_, ?_, ?_⟩ <;>
      simp [main, validate_interface, validate_firmware_path, hi, hfile,
        List.filter_cons, isNetworkEvent]

/-- Environment for the C8 witness: the firmware path does not exist. -/
def c8Env : Env :=
  ⟨fun _ _ _ => true, fun _ => 0, fun _ _ _ _ => none, "y",
   fun _ => ("", ""), "", fun _ => true, fun _ => false⟩

/-- C8 witness at a concrete missing firmware file. -/
theorem bad_firmware_no_network_mutation_check :
    (validate_firmware_path "/missing.bin" c8Env).1 = false
    ∧ (main "/missing.bin" "192.168.1.1" 120 "eth0" false c8Env none).1 = 1
    ∧ (main "/missing.bin" "192.168.1.1" 120 "eth0" false c8Env none).2.filter
        isNetworkEvent = [] :=
  bad_firmware_no_network_mutation "/missing.bin" "192.168.1.1" 120 "eth0" false c8Env
    none rfl

/-- The sweep loop on a nonempty candidate list always begins by invoking
the configurator. -/
lemma sweep_loop_configures_ne_nil (interface firmware : String) (timeout : Nat)
    (no_ping : Bool) (env : Env) (cfg : Cfg) (i : Nat) (rest : List Nat) :
    configuresOf (try_default_ip_range_loop interface firmware timeout no_ping env cfg
        (i :: rest)).2 ≠ [] := by
  by_cases hp : (ping_host "192.168.1.1" no_ping env
      (some ("192.168.1." ++ toString i, "24", "192.168.1.1")) 3 1).1 = true <;>
    simp [try_default_ip_range_loop, hp, configure_interface]

/-- C9: given an unreachable direct target, the fallback sweep is entered
(equivalently, the configurator is invoked) exactly when the operator's
answer, stripped of surrounding whitespace and lowercased, is the
one-character string "y"; any other answer — "yes" included — makes the
orchestrator return failure without ever configuring the interface. -/
theorem sweep_consent_iff_y (hostname interface firmware : String) (timeout : Nat)
    (no_ping : Bool) (env : Env) (cfg : Cfg)
    (hping : (ping_host hostname no_ping env cfg 3 1).1 = false) :
    (configuresOf (upload_firmware hostname interface firmware timeout no_ping env cfg).2
        ≠ [] ↔ pyLower (pyStrip env.consent) = "y")
    ∧ (pyLower (pyStrip env.consent) ≠ "y" →
        (upload_firmware hostname interface firmware timeout no_ping env cfg).1 = false) := by
  by_cases hans : pyLower (pyStrip env.consent) = "y"
  · have hne : configuresOf
        (upload_firmware hostname interface firmware timeout no_ping env cfg).2 ≠ [] := by
      have hr : List.range' 2 24 = 2 :: List.range' 3 23 := rfl
      simp only [upload_firmware, hping, Bool.false_eq_true, if_false]
      rw [if_neg (not_not_intro hans)]
      simpa [ping_host_filter_configure, try_default_ip_range, hr] using
        sweep_loop_configures_ne_nil interface firmware timeout no_ping env cfg 2
          (List.range' 3 23)
    exact ⟨⟨fun _ => hans, fun _ => hne⟩, fun h => absurd hans h⟩
  · have hconf := upload_firmware_declined hostname interface firmware timeout no_ping
      env cfg hping hans
    exact ⟨⟨fun h => absurd hconf.2.1 h, fun h => absurd h hans⟩, fun _ => hconf.1⟩

/-- Environment for the C9 witness: unreachable target, the operator
answers "yes", which does not count as consent. -/
def c9Env : Env :=
  ⟨fun _ _ _ => false, fun _ => 0, fun _ _ _ _ => none, "yes",
   fun _ => ("", ""), "", fun _ => true, fun _ => true⟩

/-- C9 witness: the answer "yes" does not start the sweep and the run
fails. -/
theorem sweep_consent_iff_y_check :
    configuresOf (upload_firmware "192.168.1.1" "eth0" "/fw.bin" 120 false c9Env none).2
      = []
    ∧ (upload_firmware "192.168.1.1" "eth0" "/fw.bin" 120 false c9Env none).1 = false := by
  have h := sweep_consent_iff_y "192.168.1.1" "eth0" "/fw.bin" 120 false c9Env none rfl
  exact ⟨not_ne_iff.mp (fun hA => absurd (h.1.mp hA) (by decide)), h.2 (by decide)⟩

end TRF
